import Mathlib

/-!
Shallow embedding of the spiking-network simulation core of the `silicon`
repository, together with theorems settling the frozen specification claims.

Conventions of the embedding:
* Rust `f64` values are modelled as rationals (`ℚ`); float rounding is out of
  scope, the stepping equations are taken at their mathematical value.
* Bevy `Entity` identifiers are modelled as natural numbers.
* Each Rust method that mutates `&mut self` becomes a pure function returning
  the updated value (paired with the Rust return value where there is one).
* The per-tick pipeline `(update_clock, update_neurons, update_synapses,
  update_stdp_synapses, prune_synapses)` registered in
  `src/simulator/src/lib.rs` (`SimulationPlugin::build`) is modelled as the
  sequential composition of those five systems in their declared order,
  executed single-threaded to completion — the scheduling contract stated by
  the specification.
* `f64::exp` has no exact rational counterpart; the one system that uses it
  (`update_stdp_synapses`) is parameterised over an arbitrary `expf : ℚ → ℚ`.
-/

namespace Silicon

/-- `SynapseType` from `src/synapses/src/lib.rs`. -/
inductive SynapseType where
  | Excitatory
  | Inhibitory
deriving DecidableEq, Repr

/-- `StdpSpikeType` from `src/synapses/src/stdp.rs`. -/
inductive StdpSpikeType where
  | PreSpike
  | PostSpike
deriving DecidableEq, Repr

/-- `StdpState` from `src/synapses/src/stdp.rs`. -/
structure StdpState where
  a : ℚ
  spike_type : StdpSpikeType
deriving DecidableEq, Repr

/-- `StdpParams` from `src/synapses/src/stdp.rs`. -/
structure StdpParams where
  a_plus : ℚ
  a_minus : ℚ
  tau_plus : ℚ
  tau_minus : ℚ
  w_max : ℚ
  w_min : ℚ
deriving DecidableEq, Repr

/-- `StdpSynapse` from `src/synapses/src/stdp.rs` (`Entity` ids as `ℕ`). -/
structure StdpSynapse where
  weight : ℚ
  delay : ℕ
  source : ℕ
  target : ℕ
  synapse_type : SynapseType
  stdp_params : StdpParams
  stdp_state : StdpState
deriving DecidableEq, Repr

/-- `SimpleSynapse` from `src/synapses/src/simple.rs`. -/
structure SimpleSynapse where
  weight : ℚ
  delay : ℕ
  source : ℕ
  target : ℕ
  synapse_type : SynapseType
deriving DecidableEq, Repr

/-- `f64::EPSILON`, the machine epsilon used by `register_pre_spike` /
`register_post_spike` as the negligibility threshold for the trace. -/
def f64Epsilon : ℚ := 1 / 2 ^ 52

/-- `StdpSynapse::register_pre_spike` from `src/synapses/src/stdp.rs`:
if `|a| > EPSILON` and the last spike side was `PostSpike`, immediately set
`weight = ((weight + a).min(w_max)).max(w_min)`; in every case then set
`spike_type = PreSpike` and `a = a_plus`. The Rust method returns `()`. -/
def StdpSynapse.register_pre_spike (s : StdpSynapse) : StdpSynapse :=
  let s :=
    if |s.stdp_state.a| > f64Epsilon ∧ s.stdp_state.spike_type = StdpSpikeType.PostSpike then
      { s with weight := max (min (s.weight + s.stdp_state.a) s.stdp_params.w_max)
                             s.stdp_params.w_min }
    else s
  { s with stdp_state := { a := s.stdp_params.a_plus, spike_type := StdpSpikeType.PreSpike } }

/-- `StdpSynapse::register_post_spike` from `src/synapses/src/stdp.rs`:
if `|a| > EPSILON` and the last spike side was `PreSpike`, immediately set
`weight = ((weight - a).min(w_max)).max(w_min)`; in every case then set
`spike_type = PostSpike` and `a = a_minus`. The Rust method returns `()`. -/
def StdpSynapse.register_post_spike (s : StdpSynapse) : StdpSynapse :=
  let s :=
    if |s.stdp_state.a| > f64Epsilon ∧ s.stdp_state.spike_type = StdpSpikeType.PreSpike then
      { s with weight := max (min (s.weight - s.stdp_state.a) s.stdp_params.w_max)
                             s.stdp_params.w_min }
    else s
  { s with stdp_state := { a := s.stdp_params.a_minus, spike_type := StdpSpikeType.PostSpike } }

/-- `<StdpSynapse as Synapse>::set_weight`: stores the value with no clamping. -/
def StdpSynapse.set_weight (s : StdpSynapse) (weight : ℚ) : StdpSynapse :=
  { s with weight := weight }

/-- `<StdpSynapse as Synapse>::update`: eligibility-trace relaxation
`a += (0 - a) * tau` (the Rust `match` has identical arms for both sides). -/
def StdpSynapse.update (s : StdpSynapse) (tau : ℚ) : StdpSynapse :=
  let delta_a :=
    match s.stdp_state.spike_type with
    | StdpSpikeType.PreSpike => (0 - s.stdp_state.a) * tau
    | StdpSpikeType.PostSpike => (0 - s.stdp_state.a) * tau
  { s with stdp_state := { s.stdp_state with a := s.stdp_state.a + delta_a } }

/-- Rust `f64::clamp(lo, hi)` (for `lo ≤ hi`): branch structure of the Rust
implementation. -/
def rustClamp (x lo hi : ℚ) : ℚ :=
  if x < lo then lo else if x > hi then hi else x

/-- The reward-modulated weight update applied to one `DeferredStdpEvent` in
the drain loop of `insert_current` (`src/silicon/src/main.rs`):
`weight += delta_weight * reward; weight = weight.clamp(w_min, w_max)`. -/
def apply_deferred_event (s : StdpSynapse) (delta_weight reward : ℚ) : StdpSynapse :=
  let weight := s.weight + delta_weight * reward
  { s with weight := rustClamp weight s.stdp_params.w_min s.stdp_params.w_max }

/-- `LifNeuron` from `src/neurons/src/leaky.rs` (field spelling kept,
including the source's `refactory` spelling). -/
structure LifNeuron where
  membrane_potential : ℚ
  reset_potential : ℚ
  threshold_potential : ℚ
  resistance : ℚ
  resting_potential : ℚ
  refactory_period : ℚ
  refactory_counter : ℚ
deriving DecidableEq, Repr

/-- `<LifNeuron as Neuron>::update` from `src/neurons/src/leaky.rs`.
Returns `(fired, updated neuron)`. -/
def LifNeuron.update (n : LifNeuron) (tau : ℚ) : Bool × LifNeuron :=
  if n.refactory_counter > 0 then
    (false, { n with refactory_counter := n.refactory_counter - tau })
  else
    let delta_v := (n.resting_potential - n.membrane_potential) * tau
    let n := { n with membrane_potential := n.membrane_potential + delta_v }
    if n.membrane_potential > n.threshold_potential then
      (true, { n with membrane_potential := n.reset_potential,
                      refactory_counter := n.refactory_period })
    else
      (false, n)

/-- `<LifNeuron as Neuron>::add_membrane_potential`: unconditional addition,
returns the new potential together with the updated neuron. -/
def LifNeuron.add_membrane_potential (n : LifNeuron) (delta_v : ℚ) : ℚ × LifNeuron :=
  let n := { n with membrane_potential := n.membrane_potential + delta_v }
  (n.membrane_potential, n)

/-- `IzhikevichNeuron` from `src/neurons/src/izhikevich.rs`. -/
structure IzhikevichNeuron where
  a : ℚ
  b : ℚ
  c : ℚ
  d : ℚ
  v : ℚ
  u : ℚ
  synapse_weight_multiplier : ℚ
deriving DecidableEq, Repr

/-- `<IzhikevichNeuron as Neuron>::update` from `src/neurons/src/izhikevich.rs`.
Both Euler right-hand sides are evaluated at the pre-step `(v, u)` (the Rust
code assigns `self.v`/`self.u` only after computing both), and the `+ 0.0`
of the source is kept. Returns `(fired, updated neuron)`. -/
def IzhikevichNeuron.update (n : IzhikevichNeuron) (tau : ℚ) : Bool × IzhikevichNeuron :=
  let v := n.v + tau * (4 / 100 * n.v * n.v + 5 * n.v + 140 - n.u) + 0
  let u := n.u + tau * n.a * (n.b * n.v - n.u)
  let n := { n with v := v, u := u }
  if n.v ≥ 30 then
    (true, { n with v := n.c, u := n.u + n.d })
  else
    (false, n)

/-- `<IzhikevichNeuron as Neuron>::add_membrane_potential`: scales the delta
by `synapse_weight_multiplier` before adding it to `v`. -/
def IzhikevichNeuron.add_membrane_potential (n : IzhikevichNeuron) (delta_v : ℚ) :
    ℚ × IzhikevichNeuron :=
  let n := { n with v := n.v + delta_v * n.synapse_weight_multiplier }
  (n.v, n)

/-- `SimpleSpikeRecorder` from `src/simulator/src/lib.rs`. -/
structure SimpleSpikeRecorder where
  max_spikes : ℕ
  spikes : List ℚ
deriving DecidableEq, Repr

/-- `SimpleSpikeRecorder::record_spike`: push, then `Vec::remove(0)` (drop the
oldest entry) whenever the length exceeds `max_spikes`. -/
def SimpleSpikeRecorder.record_spike (r : SimpleSpikeRecorder) (time : ℚ) :
    SimpleSpikeRecorder :=
  let spikes := r.spikes ++ [time]
  if spikes.length > r.max_spikes then
    { r with spikes := spikes.tail }
  else
    { r with spikes := spikes }

/-- `SimpleSpikeRecorder::get_spikes`. -/
def SimpleSpikeRecorder.get_spikes (r : SimpleSpikeRecorder) : List ℚ :=
  r.spikes

/-- `Clock` from `src/silicon-core/src/lib.rs`. -/
structure Clock where
  time : ℚ
  time_to_simulate : ℚ
  run_indefinitely : Bool
  tau : ℚ
deriving DecidableEq, Repr

/-- The `update_clock` system from `src/simulator/src/time.rs`. -/
def update_clock (c : Clock) : Clock :=
  let c :=
    if c.run_indefinitely ∧ c.time_to_simulate ≤ 1 / 10 then
      { c with time_to_simulate := c.time_to_simulate + 1 / 10 }
    else c
  if c.time_to_simulate ≤ 0 then c
  else { c with time := c.time + c.tau, time_to_simulate := c.time_to_simulate - c.tau }

/-- The closed set of neuron components registered with the simulator
(`register_component_as::<dyn Neuron, _>` in `src/neurons/src/lib.rs`). -/
inductive NeuronModel where
  | lif : LifNeuron → NeuronModel
  | izh : IzhikevichNeuron → NeuronModel
deriving DecidableEq, Repr

/-- Trait-object dispatch of `Neuron::update`. -/
def NeuronModel.update (m : NeuronModel) (tau : ℚ) : Bool × NeuronModel :=
  match m with
  | NeuronModel.lif n => let (fired, n) := n.update tau; (fired, NeuronModel.lif n)
  | NeuronModel.izh n => let (fired, n) := n.update tau; (fired, NeuronModel.izh n)

/-- Trait-object dispatch of `Neuron::add_membrane_potential` (the returned
new potential is discarded by every pipeline caller). -/
def NeuronModel.add_membrane_potential (m : NeuronModel) (delta_v : ℚ) : NeuronModel :=
  match m with
  | NeuronModel.lif n => NeuronModel.lif (n.add_membrane_potential delta_v).2
  | NeuronModel.izh n => NeuronModel.izh (n.add_membrane_potential delta_v).2

/-- Trait-object dispatch of `Neuron::get_membrane_potential`. -/
def NeuronModel.get_membrane_potential (m : NeuronModel) : ℚ :=
  match m with
  | NeuronModel.lif n => n.membrane_potential
  | NeuronModel.izh n => n.v

/-- The closed set of synapse components registered with the simulator
(`register_component_as::<dyn Synapse, _>` in `src/synapses/src/lib.rs`). -/
inductive SynapseModel where
  | simple : SimpleSynapse → SynapseModel
  | stdp : StdpSynapse → SynapseModel
deriving DecidableEq, Repr

/-- Trait-object dispatch of `Synapse::get_weight`. -/
def SynapseModel.get_weight (m : SynapseModel) : ℚ :=
  match m with
  | SynapseModel.simple s => s.weight
  | SynapseModel.stdp s => s.weight

/-- Trait-object dispatch of `Synapse::get_presynaptic`. -/
def SynapseModel.get_presynaptic (m : SynapseModel) : ℕ :=
  match m with
  | SynapseModel.simple s => s.source
  | SynapseModel.stdp s => s.source

/-- Trait-object dispatch of `Synapse::get_postsynaptic`. -/
def SynapseModel.get_postsynaptic (m : SynapseModel) : ℕ :=
  match m with
  | SynapseModel.simple s => s.target
  | SynapseModel.stdp s => s.target

/-- Trait-object dispatch of `Synapse::get_type`. -/
def SynapseModel.get_type (m : SynapseModel) : SynapseType :=
  match m with
  | SynapseModel.simple s => s.synapse_type
  | SynapseModel.stdp s => s.synapse_type

/-- `SpikeEvent` from `src/simulator/src/lib.rs`. -/
structure SpikeEvent where
  time : ℚ
  neuron : ℕ
deriving DecidableEq, Repr

/-- `StdpSettings` from `src/synapses/src/stdp.rs`. -/
structure StdpSettings where
  look_back : ℚ
  update_interval : ℚ
  next_update : ℚ
deriving DecidableEq, Repr

/-- `DeferredStdpEvent` from `src/synapses/src/lib.rs`. -/
structure DeferredStdpEvent where
  synapse : ℕ
  delta_weight : ℚ
deriving DecidableEq, Repr

/-- One simulated entity carrying a neuron component: its `Entity` id, the
neuron model, and the optional `SimpleSpikeRecorder` component (the
`MembranePlotter` component is analytics-only and never read back by the
pipeline, so it is not modelled). -/
structure NeuronEntry where
  id : ℕ
  model : NeuronModel
  recorder : Option SimpleSpikeRecorder
deriving DecidableEq, Repr

/-- The simulation world: the ECS state the five `SimulationPlugin` systems
read and write. Synapse entities are `(Entity id, component)` pairs;
`spike_events` is the `Events<SpikeEvent>` queue and `deferred_stdp_events`
the `Events<DeferredStdpEvent>` queue. -/
structure World where
  clock : Clock
  neurons : List NeuronEntry
  synapses : List (ℕ × SynapseModel)
  stdp_settings : StdpSettings
  spike_events : List SpikeEvent
  deferred_stdp_events : List DeferredStdpEvent
deriving DecidableEq, Repr

/-- The per-neuron body of the `update_neurons` loop
(`src/simulator/src/lib.rs`): integrate, and on firing emit a
`SpikeEvent` and record the spike time in the recorder when present. -/
def stepNeuronEntry (clock : Clock) (e : NeuronEntry) : NeuronEntry × Option SpikeEvent :=
  let (fired, model) := e.model.update clock.tau
  if fired then
    ({ e with model := model,
              recorder := e.recorder.map (fun r => r.record_spike clock.time) },
     some { time := clock.time, neuron := e.id })
  else
    ({ e with model := model }, none)

/-- The `update_neurons` system (`src/simulator/src/lib.rs`): early-out when
no simulation budget remains, otherwise integrate every neuron and queue a
spike event for each neuron that fired. It touches no synapse and no
deferred-STDP queue. -/
def update_neurons (w : World) : World :=
  if w.clock.time_to_simulate ≤ 0 then w
  else
    let stepped := w.neurons.map (stepNeuronEntry w.clock)
    { w with
      neurons := stepped.map Prod.fst,
      spike_events := w.spike_events ++ stepped.filterMap Prod.snd }

/-- Apply `add_membrane_potential` to the neuron with the given id (the
`neuron_query.get_mut` succeeds exactly when the id is present; a missing
neuron is skipped). -/
def injectIntoNeuron (ns : List NeuronEntry) (id : ℕ) (delta : ℚ) : List NeuronEntry :=
  ns.map fun e =>
    if e.id = id then { e with model := e.model.add_membrane_potential delta } else e

/-- The per-(event, synapse) body of `update_synapses`
(`src/simulator/src/lib.rs`): when the synapse's presynaptic neuron is the
spiking one, inject `+weight` (excitatory) or `-weight` (inhibitory) into
the postsynaptic neuron. The source's skip of a failed
`neuron_query.get_mut` (postsynaptic neuron despawned) is subsumed by
`injectIntoNeuron` being a no-op when the target id is absent. -/
def applySynapseForSpike (ev : SpikeEvent) (ns : List NeuronEntry) (syn : SynapseModel) :
    List NeuronEntry :=
  if syn.get_presynaptic = ev.neuron then
    match syn.get_type with
    | SynapseType.Excitatory => injectIntoNeuron ns syn.get_postsynaptic syn.get_weight
    | SynapseType.Inhibitory => injectIntoNeuron ns syn.get_postsynaptic (-syn.get_weight)
  else ns

/-- The `update_synapses` system (`src/simulator/src/lib.rs`): drain the
spike-event queue; for each spike, sweep all synapses and apply the
instantaneous effect to the postsynaptic neurons. -/
def update_synapses (w : World) : World :=
  { w with
    neurons :=
      w.spike_events.foldl
        (fun ns ev => w.synapses.foldl (fun ns p => applySynapseForSpike ev ns p.2) ns)
        w.neurons,
    spike_events := [] }

/-- `average` from `src/simulator/src/lib.rs`: `None` on the empty slice,
otherwise the arithmetic mean. -/
def average (values : List ℚ) : Option ℚ :=
  if values.isEmpty then none
  else some ((values.foldl (· + ·) 0) / values.length)

/-- Look up the `SpikeRecorder` component of the neuron with the given id
(`neuron_query.get_mut` in `update_stdp_synapses` errors — and the synapse is
skipped — when the neuron id is absent or has no recorder component). -/
def lookupRecorder (ns : List NeuronEntry) (id : ℕ) : Option SimpleSpikeRecorder :=
  (ns.find? (fun e => e.id = id)).bind (fun e => e.recorder)

/-- The per-synapse body of the `update_stdp_synapses` look-back pass
(`src/simulator/src/lib.rs`): skip inhibitory synapses; average the recent
pre- and post-synaptic spike times; derive `delta_t`; move the weight by the
exponentially discounted `a_plus`/`a_minus` and clamp it into
`[w_min, w_max]`. `expf` stands for `f64::exp`. -/
def stepStdpSynapse (expf : ℚ → ℚ) (ns : List NeuronEntry) (settings : StdpSettings)
    (clock : Clock) (s : StdpSynapse) : StdpSynapse :=
  if s.synapse_type = SynapseType.Inhibitory then s
  else
    match lookupRecorder ns s.source with
    | none => s
    | some preRec =>
      match lookupRecorder ns s.target with
      | none => s
      | some postRec =>
        let pre_spikes :=
          preRec.get_spikes.filter (fun t => t > clock.time - settings.look_back)
        let post_spikes :=
          postRec.get_spikes.filter (fun t => t > clock.time - settings.look_back)
        let applyDelta := fun (dt : ℚ) =>
          -- source: invert `delta_t` for inhibitory synapses (dead code here,
          -- inhibitory synapses were already skipped above)
          let dt :=
            match s.synapse_type with
            | SynapseType.Excitatory => dt
            | SynapseType.Inhibitory => -dt
          let weight :=
            if dt > 0 then
              s.weight + s.stdp_params.a_plus * expf (-dt / s.stdp_params.tau_plus)
            else
              s.weight + s.stdp_params.a_minus * expf (dt / s.stdp_params.tau_minus)
          { s with weight := min (max weight s.stdp_params.w_min) s.stdp_params.w_max }
        match average pre_spikes, average post_spikes with
        | some pre, some post => applyDelta (post - pre)
        | some _, none => applyDelta (-clock.tau * 2)
        | none, some _ => s
        | none, none => s

/-- The `update_stdp_synapses` system (`src/simulator/src/lib.rs`): decrement
`next_update` by `tau`; when the interval has elapsed, reset it to
`update_interval` and run the look-back weight update over every
`StdpSynapse` component (simple synapses are not in this query). -/
def update_stdp_synapses (expf : ℚ → ℚ) (w : World) : World :=
  let settings := { w.stdp_settings with
                    next_update := w.stdp_settings.next_update - w.clock.tau }
  if settings.next_update ≥ 0 then { w with stdp_settings := settings }
  else
    let settings := { settings with next_update := settings.update_interval }
    { w with
      stdp_settings := settings,
      synapses := w.synapses.map (fun p =>
        match p.2 with
        | SynapseModel.stdp s =>
          (p.1, SynapseModel.stdp (stepStdpSynapse expf w.neurons settings w.clock s))
        | m => (p.1, m)) }

/-- The `prune_synapses` system (`src/simulator/src/lib.rs`): despawn every
synapse whose weight is below `0.1`. -/
def prune_synapses (w : World) : World :=
  { w with synapses := w.synapses.filter (fun p => ¬ p.2.get_weight < 1 / 10) }

/-- One simulation tick: the five `SimulationPlugin` systems in their
declared order, run sequentially to completion. -/
def simulationTick (expf : ℚ → ℚ) (w : World) : World :=
  prune_synapses
    (update_stdp_synapses expf
      (update_synapses
        (update_neurons
          { w with clock := update_clock w.clock })))

/-- Spike count used by the reward step of `insert_current`
(`src/silicon/src/main.rs`): the number of recorded spikes with
`s >= clock.time - 5.0`. -/
def recent_spike_count (r : SimpleSpikeRecorder) (now : ℚ) : ℕ :=
  (r.get_spikes.filter (fun s => s ≥ now - 5)).length

/-- The reward accumulation loop of `insert_current`
(`src/silicon/src/main.rs`): walk the sorted output neurons (class index
`0, 1, …` in order); for each, subtract `1` when it spiked not at all, then
add its spike count when its class is the presented one and subtract it
otherwise. -/
def reward_contributions (spike_counts : List ℕ) (cls : ℕ) : ℚ :=
  spike_counts.enum.foldl
    (fun reward p =>
      let spikes : ℚ := p.2
      let reward := if spikes = 0 then reward - 1 else reward
      if p.1 = cls then reward + spikes else reward - spikes)
    0

/-- The reward value of `insert_current` before the zero-reward randomised
exploration: the accumulated contributions clamped to `[-5, 5]`
(`reward_min = -5.0`, `reward_max = 5.0` in the source). -/
def compute_reward (spike_counts : List ℕ) (cls : ℕ) : ℚ :=
  rustClamp (reward_contributions spike_counts cls) (-5) 5

/-- The single LIF neuron of the specification's end-to-end scenario:
`threshold = -55`, `reset = -90`, `resting = -70`, starting at rest outside
the refractory window (`resistance` and `refactory_period` as in the
repository's LIF instantiations: `1.3` and `0.09`). -/
def c9_neuron : LifNeuron :=
  { membrane_potential := -70
    reset_potential := -90
    threshold_potential := -55
    resistance := 13 / 10
    resting_potential := -70
    refactory_period := 9 / 100
    refactory_counter := 0 }

/-- One tick of the end-to-end scenario at `tau = 0.025`: the external
encoder injects `+20` via `add_membrane_potential`, then the neuron
integrates; the first component counts fires so far. -/
def c9_step (p : ℕ × LifNeuron) : ℕ × LifNeuron :=
  let n := (p.2.add_membrane_potential 20).2
  let (fired, n) := n.update (1 / 40)
  (p.1 + (if fired then 1 else 0), n)

/-- The scenario state after `k` injection ticks. -/
def c9_run (k : ℕ) : ℕ × LifNeuron :=
  c9_step^[k] (0, c9_neuron)

/-- A LIF neuron whose resting potential (0) lies above its threshold
(-55), sitting exactly at the threshold with no refractory time left. -/
def c5_neuron : LifNeuron :=
  { membrane_potential := -55
    reset_potential := -90
    threshold_potential := -55
    resistance := 13 / 10
    resting_potential := 0
    refactory_period := 9 / 100
    refactory_counter := 0 }

/-- A concrete STDP synapse with a live trace (`|a| > EPSILON`) whose last
recorded spike side is `PostSpike`, with `w_min = 0`, `w_max = 1`. -/
def exStdpSynapse : StdpSynapse :=
  { weight := 1 / 2
    delay := 0
    source := 0
    target := 1
    synapse_type := SynapseType.Excitatory
    stdp_params :=
      { a_plus := 1 / 10, a_minus := -1 / 10, tau_plus := 1, tau_minus := 1,
        w_max := 1, w_min := 0 }
    stdp_state := { a := 1 / 2, spike_type := StdpSpikeType.PostSpike } }

/-- A LIF neuron close enough to threshold that the next `update(0.025)`
fires: `-50 + (-70 + 50) * 0.025 = -50.5 > -55`. -/
def c1_neuron : LifNeuron :=
  { membrane_potential := -50
    reset_potential := -90
    threshold_potential := -55
    resistance := 13 / 10
    resting_potential := -70
    refactory_period := 9 / 100
    refactory_counter := 0 }

/-- An STDP synapse whose presynaptic (and postsynaptic) neuron is entity 0,
with a live trace and last side `PostSpike` — the exact configuration in
which claim C1 requires a `register_pre_spike` call and a queued
`DeferredStdpEvent` when neuron 0 fires. -/
def c1_synapse : StdpSynapse :=
  { weight := 1 / 2
    delay := 0
    source := 0
    target := 0
    synapse_type := SynapseType.Excitatory
    stdp_params :=
      { a_plus := 1 / 10, a_minus := -1 / 10, tau_plus := 1, tau_minus := 1,
        w_max := 1, w_min := 0 }
    stdp_state := { a := 1 / 2, spike_type := StdpSpikeType.PostSpike } }

/-- A world holding the single about-to-fire neuron 0 and the STDP synapse
attached to it, with simulation budget available and the STDP look-back
pass due this tick. -/
def c1_world : World :=
  { clock := { time := 0, time_to_simulate := 1, run_indefinitely := false, tau := 1 / 40 }
    neurons := [{ id := 0, model := NeuronModel.lif c1_neuron, recorder := none }]
    synapses := [(7, SynapseModel.stdp c1_synapse)]
    stdp_settings := { look_back := 1, update_interval := 1, next_update := -1 / 10 }
    spike_events := []
    deferred_stdp_events := [] }

/-- Two LIF neurons (entities 0 and 1) joined by one excitatory simple
synapse of weight `0.5` from 0 to 1, with simulation budget available. -/
def c7_world (nA nB : LifNeuron) : World :=
  { clock := { time := 0, time_to_simulate := 1, run_indefinitely := false, tau := 1 / 40 }
    neurons := [{ id := 0, model := NeuronModel.lif nA, recorder := none },
                { id := 1, model := NeuronModel.lif nB, recorder := none }]
    synapses := [(2, SynapseModel.simple
      { weight := 1 / 2, delay := 0, source := 0, target := 1,
        synapse_type := SynapseType.Excitatory })]
    stdp_settings := { look_back := 1, update_interval := 1, next_update := 1 }
    spike_events := []
    deferred_stdp_events := [] }

/-- An inhibitory STDP synapse between entities 0 and 1. -/
def c10_synapse : StdpSynapse :=
  { weight := 1 / 2
    delay := 0
    source := 0
    target := 1
    synapse_type := SynapseType.Inhibitory
    stdp_params :=
      { a_plus := 1 / 10, a_minus := -1 / 10, tau_plus := 1, tau_minus := 1,
        w_max := 1, w_min := 0 }
    stdp_state := { a := 1 / 2, spike_type := StdpSpikeType.PostSpike } }

/-- A world in which the look-back pass is due this tick and both endpoint
neurons have recorders with recent spikes, so that only the
inhibitory-synapse guard keeps `c10_synapse` untouched. -/
def c10_world : World :=
  { clock := { time := 1, time_to_simulate := 1, run_indefinitely := false, tau := 1 / 40 }
    neurons := [{ id := 0, model := NeuronModel.lif c9_neuron,
                  recorder := some { max_spikes := 1000, spikes := [3 / 4, 9 / 10] } },
                { id := 1, model := NeuronModel.lif c9_neuron,
                  recorder := some { max_spikes := 1000, spikes := [4 / 5] } }]
    synapses := [(5, SynapseModel.stdp c10_synapse)]
    stdp_settings := { look_back := 1, update_interval := 1, next_update := -1 / 10 }
    spike_events := []
    deferred_stdp_events := [] }

/-- Claim C2, counterexample: at `correct_class_spikes = 3`,
`wrong_class_spikes = 0` (output neuron of class 0 spiked 3 times, class 1
spiked 0 times, class 0 presented) the code computes reward `2`, not the
claimed `1.0`: there is no target count, no `|target - observed|` error and
no `clamp(1 - error/target, -1, 1)` in `insert_current`. -/
theorem C2_counterexample : compute_reward [3, 0] 0 ≠ 1 := by
  norm_num [compute_reward, reward_contributions, rustClamp, List.enum, List.enumFrom]

/-- Claim C2, amended: the reward is the clamp to `[-5, 5]` of a sum over
the output neurons in class order — `+spikes` for the presented class,
`-spikes` for every other class, and an extra `-1` for each neuron with zero
recent spikes; at `correct_class_spikes = 3`, `wrong_class_spikes = 0` this
yields `2`. -/
theorem C2_reward_formula :
    (∀ c0 c1 : ℕ, compute_reward [c0, c1] 0 =
      rustClamp ((if (c0 : ℚ) = 0 then ((0 : ℚ) - 1) else 0) + c0 +
        ((if (c1 : ℚ) = 0 then ((0 : ℚ) - 1) else 0) - c1)) (-5) 5) ∧
    compute_reward [3, 0] 0 = 2 := by
  constructor
  · intro c0 c1
    unfold compute_reward reward_contributions
    simp only [List.enum, List.enumFrom, List.foldl]
    by_cases h0 : (c0 : ℚ) = 0 <;> by_cases h1 : (c1 : ℚ) = 0 <;>
      simp [h0, h1] <;> ring_nf
  · norm_num [compute_reward, reward_contributions, rustClamp, List.enum, List.enumFrom]

/-- Claim C3, counterexample: `set_weight` stores the value unclamped, so
after `set_weight(5)` on a synapse with `w_min = 0`, `w_max = 1` the weight
`5` lies outside `[w_min, w_max]`. -/
theorem C3_counterexample :
    ¬ (exStdpSynapse.stdp_params.w_min ≤ (exStdpSynapse.set_weight 5).weight ∧
       (exStdpSynapse.set_weight 5).weight ≤ exStdpSynapse.stdp_params.w_max) := by
  norm_num [StdpSynapse.set_weight, exStdpSynapse]

/-- Claim C3, amended: the weight mutations that the STDP synapse itself
clamps — the reward-modulated update `weight += delta_weight * reward`
(drained `DeferredStdpEvent`s) and the immediate updates inside
`register_pre_spike` / `register_post_spike` — leave the weight in
`[w_min, w_max]` whenever `w_min ≤ w_max`; `set_weight` is excluded, it
stores the raw value. -/
theorem C3_weight_clamped (s : StdpSynapse) (dw r : ℚ)
    (h : s.stdp_params.w_min ≤ s.stdp_params.w_max) :
    (s.stdp_params.w_min ≤ (apply_deferred_event s dw r).weight ∧
      (apply_deferred_event s dw r).weight ≤ s.stdp_params.w_max) ∧
    (s.register_pre_spike.weight = s.weight ∨
      (s.stdp_params.w_min ≤ s.register_pre_spike.weight ∧
        s.register_pre_spike.weight ≤ s.stdp_params.w_max)) ∧
    (s.register_post_spike.weight = s.weight ∨
      (s.stdp_params.w_min ≤ s.register_post_spike.weight ∧
        s.register_post_spike.weight ≤ s.stdp_params.w_max)) := by
  refine ⟨?_, ?_, ?_⟩
  · unfold apply_deferred_event rustClamp
    dsimp only
    split_ifs with h1 h2
    · exact ⟨le_refl _, h⟩
    · exact ⟨h, le_refl _⟩
    · exact ⟨le_of_not_lt h1, le_of_not_lt h2⟩
  · unfold StdpSynapse.register_pre_spike
    dsimp only
    split_ifs with h1
    · exact Or.inr ⟨le_max_right _ _, max_le (min_le_right _ _) h⟩
    · exact Or.inl rfl
  · unfold StdpSynapse.register_post_spike
    dsimp only
    split_ifs with h1
    · exact Or.inr ⟨le_max_right _ _, max_le (min_le_right _ _) h⟩
    · exact Or.inl rfl

/-- Claim C3 witness: the amended clamping theorem applied to a concrete
synapse, delta and reward. -/
theorem C3_weight_clamped_witness :
    exStdpSynapse.stdp_params.w_min ≤ exStdpSynapse.stdp_params.w_max ∧
    ((exStdpSynapse.stdp_params.w_min ≤ (apply_deferred_event exStdpSynapse 2 3).weight ∧
        (apply_deferred_event exStdpSynapse 2 3).weight ≤ exStdpSynapse.stdp_params.w_max) ∧
      (exStdpSynapse.register_pre_spike.weight = exStdpSynapse.weight ∨
        (exStdpSynapse.stdp_params.w_min ≤ exStdpSynapse.register_pre_spike.weight ∧
          exStdpSynapse.register_pre_spike.weight ≤ exStdpSynapse.stdp_params.w_max)) ∧
      (exStdpSynapse.register_post_spike.weight = exStdpSynapse.weight ∨
        (exStdpSynapse.stdp_params.w_min ≤ exStdpSynapse.register_post_spike.weight ∧
          exStdpSynapse.register_post_spike.weight ≤ exStdpSynapse.stdp_params.w_max))) :=
  ⟨by norm_num [exStdpSynapse],
   C3_weight_clamped exStdpSynapse 2 3 (by norm_num [exStdpSynapse])⟩

/-- Claim C4, counterexample: on a synapse with `|a| > EPSILON` and last
side `PostSpike` — exactly the case where the claim says the delta is
returned as `Some(a)` for deferred application — `register_pre_spike`
returns nothing and instead writes the clamped weight immediately
(`1/2 ↦ 1`). -/
theorem exStdpSynapse_trace_live : |exStdpSynapse.stdp_state.a| > f64Epsilon := by
  rw [show exStdpSynapse.stdp_state.a = 1 / 2 from rfl,
    abs_of_pos (by norm_num : (0 : ℚ) < 1 / 2)]
  norm_num [f64Epsilon]

theorem C4_counterexample :
    |exStdpSynapse.stdp_state.a| > f64Epsilon ∧
    exStdpSynapse.stdp_state.spike_type = StdpSpikeType.PostSpike ∧
    exStdpSynapse.register_pre_spike.weight ≠ exStdpSynapse.weight := by
  refine ⟨exStdpSynapse_trace_live, rfl, ?_⟩
  unfold StdpSynapse.register_pre_spike
  rw [if_pos ⟨exStdpSynapse_trace_live, rfl⟩]
  norm_num [exStdpSynapse, min_def, max_def]

/-- Claim C4, amended: `register_pre_spike` returns no delta; when
`|a| > EPSILON` and the last side was `PostSpike` it immediately sets
`weight = ((weight + a).min(w_max)).max(w_min)` and otherwise leaves the
weight unchanged; in every case it then sets `spike_type = PreSpike` and
`a = a_plus`. Symmetrically, `register_post_spike` applies
`((weight - a).min(w_max)).max(w_min)` exactly when `|a| > EPSILON` and the
last side was `PreSpike`, and always sets `spike_type = PostSpike`,
`a = a_minus`. -/
theorem C4_register_spike_behavior (s : StdpSynapse) :
    (s.register_pre_spike.stdp_state.spike_type = StdpSpikeType.PreSpike ∧
      s.register_pre_spike.stdp_state.a = s.stdp_params.a_plus ∧
      s.register_post_spike.stdp_state.spike_type = StdpSpikeType.PostSpike ∧
      s.register_post_spike.stdp_state.a = s.stdp_params.a_minus) ∧
    ((|s.stdp_state.a| > f64Epsilon ∧ s.stdp_state.spike_type = StdpSpikeType.PostSpike) →
      s.register_pre_spike.weight =
        max (min (s.weight + s.stdp_state.a) s.stdp_params.w_max) s.stdp_params.w_min) ∧
    (¬ (|s.stdp_state.a| > f64Epsilon ∧ s.stdp_state.spike_type = StdpSpikeType.PostSpike) →
      s.register_pre_spike.weight = s.weight) ∧
    ((|s.stdp_state.a| > f64Epsilon ∧ s.stdp_state.spike_type = StdpSpikeType.PreSpike) →
      s.register_post_spike.weight =
        max (min (s.weight - s.stdp_state.a) s.stdp_params.w_max) s.stdp_params.w_min) ∧
    (¬ (|s.stdp_state.a| > f64Epsilon ∧ s.stdp_state.spike_type = StdpSpikeType.PreSpike) →
      s.register_post_spike.weight = s.weight) := by
  unfold StdpSynapse.register_pre_spike StdpSynapse.register_post_spike
  dsimp only
  refine ⟨⟨rfl, ?_, rfl, ?_⟩, ?_, ?_, ?_, ?_⟩
  · split_ifs <;> rfl
  · split_ifs <;> rfl
  · intro hc; rw [if_pos hc]
  · intro hc; rw [if_neg hc]
  · intro hc; rw [if_pos hc]
  · intro hc; rw [if_neg hc]

/-- Claim C4 witness: the amended characterisation applied to a concrete
synapse in the post-then-pre case. -/
theorem C4_register_spike_behavior_witness :
    exStdpSynapse.register_pre_spike.weight =
      max (min (exStdpSynapse.weight + exStdpSynapse.stdp_state.a)
            exStdpSynapse.stdp_params.w_max)
          exStdpSynapse.stdp_params.w_min :=
  (C4_register_spike_behavior exStdpSynapse).2.1 ⟨exStdpSynapse_trace_live, rfl⟩

/-- Claim C5, counterexample: the claim holds for no constraint between
`resting_potential` and `threshold_potential`; for a LIF neuron whose
resting potential lies above its threshold (here `resting = 0`,
`threshold = -55`), starting at the threshold with a zero refractory
counter, `update(0.025)` leaks the potential upward past the threshold and
returns `true`. -/
theorem C5_counterexample :
    c5_neuron.membrane_potential ≤ c5_neuron.threshold_potential ∧
    c5_neuron.refactory_counter = 0 ∧
    (c5_neuron.update (1 / 40)).1 = true := by
  refine ⟨by norm_num [c5_neuron], rfl, ?_⟩
  norm_num [c5_neuron, LifNeuron.update]

/-- Claim C5, amended: for a LIF neuron whose resting potential does not
exceed its threshold, with `membrane_potential ≤ threshold_potential`,
`refactory_counter = 0` and a step `0 ≤ tau ≤ 1`, `update(tau)` returns
`false` and the distance to the resting potential does not increase. -/
theorem C5_lif_subthreshold_decay (n : LifNeuron) (tau : ℚ)
    (htau0 : 0 ≤ tau) (htau1 : tau ≤ 1)
    (hrest : n.resting_potential ≤ n.threshold_potential)
    (hv : n.membrane_potential ≤ n.threshold_potential)
    (hc : n.refactory_counter = 0) :
    (n.update tau).1 = false ∧
    |(n.update tau).2.membrane_potential - n.resting_potential| ≤
      |n.membrane_potential - n.resting_potential| := by
  have hnot : ¬ n.refactory_counter > 0 := by rw [hc]; exact lt_irrefl 0
  have hle : n.membrane_potential + (n.resting_potential - n.membrane_potential) * tau ≤
      n.threshold_potential := by nlinarith
  unfold LifNeuron.update
  rw [if_neg hnot]
  dsimp only
  rw [if_neg (not_lt.mpr hle)]
  refine ⟨rfl, ?_⟩
  dsimp only
  have heq : n.membrane_potential + (n.resting_potential - n.membrane_potential) * tau -
      n.resting_potential = (n.membrane_potential - n.resting_potential) * (1 - tau) := by
    ring
  rw [heq, abs_mul, abs_of_nonneg (by linarith : (0 : ℚ) ≤ 1 - tau)]
  exact mul_le_of_le_one_right (abs_nonneg _) (by linarith)

/-- Claim C5 witness: the amended theorem applied to the scenario neuron at
rest. -/
theorem C5_lif_subthreshold_decay_witness :
    ((0 : ℚ) ≤ 1 / 40 ∧ (1 : ℚ) / 40 ≤ 1 ∧
      c9_neuron.resting_potential ≤ c9_neuron.threshold_potential ∧
      c9_neuron.membrane_potential ≤ c9_neuron.threshold_potential ∧
      c9_neuron.refactory_counter = 0) ∧
    ((c9_neuron.update (1 / 40)).1 = false ∧
      |(c9_neuron.update (1 / 40)).2.membrane_potential - c9_neuron.resting_potential| ≤
        |c9_neuron.membrane_potential - c9_neuron.resting_potential|) :=
  ⟨⟨by norm_num, by norm_num, by norm_num [c9_neuron], by norm_num [c9_neuron], rfl⟩,
   C5_lif_subthreshold_decay c9_neuron (1 / 40) (by norm_num) (by norm_num)
     (by norm_num [c9_neuron]) (by norm_num [c9_neuron]) rfl⟩

/-- Claim C6: one Izhikevich `update(tau)` step is the explicit-Euler update
`v += tau * (0.04·v² + 5·v + 140 − u)`, `u += tau · a · (b·v − u)` with both
right-hand sides taken at the pre-step state; if the Euler-updated `v`
reaches `30`, the neuron is reset to `v = c`, `u += d` and reports fired,
otherwise it reports not fired and keeps the Euler-updated values. -/
theorem C6_izhikevich_euler (n : IzhikevichNeuron) (tau : ℚ) :
    n.update tau =
      if n.v + tau * (4 / 100 * n.v ^ 2 + 5 * n.v + 140 - n.u) ≥ 30 then
        (true, { n with v := n.c,
                        u := n.u + tau * n.a * (n.b * n.v - n.u) + n.d })
      else
        (false, { n with v := n.v + tau * (4 / 100 * n.v ^ 2 + 5 * n.v + 140 - n.u),
                         u := n.u + tau * n.a * (n.b * n.v - n.u) }) := by
  unfold IzhikevichNeuron.update
  dsimp only
  have hv : n.v + tau * (4 / 100 * n.v * n.v + 5 * n.v + 140 - n.u) + 0
      = n.v + tau * (4 / 100 * n.v ^ 2 + 5 * n.v + 140 - n.u) := by ring
  rw [hv]

theorem record_spike_drop (r : SimpleSpikeRecorder) (t : ℚ)
    (h : r.spikes.length ≤ r.max_spikes) :
    (r.record_spike t).spikes = (r.spikes ++ [t]).drop (r.spikes.length + 1 - r.max_spikes) ∧
    (r.record_spike t).max_spikes = r.max_spikes := by
  unfold SimpleSpikeRecorder.record_spike
  dsimp only
  split_ifs with hlen
  · have hlen' : r.spikes.length + 1 > r.max_spikes := by simpa using hlen
    have hidx : r.spikes.length + 1 - r.max_spikes = 1 := by omega
    rw [hidx]
    exact ⟨(List.drop_one _).symm, rfl⟩
  · have hlen' : ¬ r.spikes.length + 1 > r.max_spikes := by simpa using hlen
    have hidx : r.spikes.length + 1 - r.max_spikes = 0 := by omega
    rw [hidx, List.drop_zero]
    exact ⟨rfl, rfl⟩

theorem record_spike_foldl (ts : List ℚ) (r : SimpleSpikeRecorder)
    (h : r.spikes.length ≤ r.max_spikes) :
    (ts.foldl SimpleSpikeRecorder.record_spike r).spikes =
      (r.spikes ++ ts).drop (r.spikes.length + ts.length - r.max_spikes) ∧
    (ts.foldl SimpleSpikeRecorder.record_spike r).max_spikes = r.max_spikes := by
  induction ts generalizing r with
  | nil =>
    refine ⟨?_, rfl⟩
    rw [List.foldl_nil, List.append_nil, List.length_nil, Nat.add_zero,
      Nat.sub_eq_zero_of_le h, List.drop_zero]
  | cons t ts ih =>
    simp only [List.foldl_cons, List.length_cons]
    obtain ⟨hs, hm⟩ := record_spike_drop r t h
    have hk : r.spikes.length + 1 - r.max_spikes ≤ (r.spikes ++ [t]).length := by
      rw [List.length_append]
      simp only [List.length_singleton]
      omega
    have hlen' : (r.record_spike t).spikes.length ≤ (r.record_spike t).max_spikes := by
      rw [hs, hm, List.length_drop, List.length_append]
      simp only [List.length_singleton]
      omega
    obtain ⟨ihs, ihm⟩ := ih (r.record_spike t) hlen'
    refine ⟨?_, by rw [ihm, hm]⟩
    rw [ihs, hs, hm, List.length_drop, List.length_append,
      ← List.drop_append_of_le_length hk, List.drop_drop]
    have hA : (r.spikes ++ [t]) ++ ts = r.spikes ++ t :: ts := by simp
    rw [hA]
    congr 1
    simp only [List.length_singleton]
    omega

/-- Claim C8: the spike recorder is FIFO-evicting with capacity
`max_spikes`: starting from any recorder holding at most `max_spikes`
timestamps, recording any sequence of timestamps leaves exactly the
`max_spikes` most recent entries of the accumulated history (the prefix —
the oldest entries — dropped) and the length never exceeds `max_spikes`. -/
theorem C8_recorder_fifo (r : SimpleSpikeRecorder) (ts : List ℚ)
    (h : r.spikes.length ≤ r.max_spikes) :
    (ts.foldl SimpleSpikeRecorder.record_spike r).spikes =
      (r.spikes ++ ts).drop (r.spikes.length + ts.length - r.max_spikes) ∧
    (ts.foldl SimpleSpikeRecorder.record_spike r).spikes.length ≤ r.max_spikes := by
  obtain ⟨hs, _⟩ := record_spike_foldl ts r h
  refine ⟨hs, ?_⟩
  rw [hs, List.length_drop, List.length_append]
  omega

/-- Claim C8 witness: four pushes into an empty recorder of capacity two
keep exactly the two most recent timestamps. -/
theorem C8_recorder_fifo_witness :
    (SimpleSpikeRecorder.mk 2 []).spikes.length ≤ (SimpleSpikeRecorder.mk 2 []).max_spikes ∧
    ((([1, 2, 3, 4] : List ℚ).foldl SimpleSpikeRecorder.record_spike
          (SimpleSpikeRecorder.mk 2 [])).spikes =
        ((SimpleSpikeRecorder.mk 2 []).spikes ++ [1, 2, 3, 4]).drop
          ((SimpleSpikeRecorder.mk 2 []).spikes.length + ([1, 2, 3, 4] : List ℚ).length -
            (SimpleSpikeRecorder.mk 2 []).max_spikes) ∧
      (([1, 2, 3, 4] : List ℚ).foldl SimpleSpikeRecorder.record_spike
          (SimpleSpikeRecorder.mk 2 [])).spikes.length ≤
        (SimpleSpikeRecorder.mk 2 []).max_spikes) :=
  ⟨by simp, C8_recorder_fifo (SimpleSpikeRecorder.mk 2 []) [1, 2, 3, 4] (by simp)⟩

/-- Claim C9, counterexample: after the second injection tick the neuron has
fired exactly once and is still refractory, yet its membrane potential is
`-70`, not the reset potential `-90` — `add_membrane_potential` keeps
accumulating the injected `+20` during the refractory period, so the
potential does not stay at `reset_potential`. -/
theorem C9_counterexample :
    (c9_run 2).1 = 1 ∧ (c9_run 2).2.refactory_counter > 0 ∧
    (c9_run 2).2.membrane_potential ≠ (c9_run 2).2.reset_potential := by
  norm_num [c9_run, c9_step, c9_neuron, LifNeuron.update, LifNeuron.add_membrane_potential,
    Function.iterate_succ, Function.iterate_zero]

/-- Claim C9, amended: over the five injection ticks the neuron fires
exactly once (at the first tick, where it is reset to `-90` and the
refractory counter is loaded); during the refractory ticks `integrate`
leaves the potential untouched, but the per-tick injected `+20` still
accumulates, so the potential is `reset_potential + 20·k` after `k`
further ticks, not `reset_potential`. -/
theorem C9_scenario_trace :
    ((c9_run 1).1 = 1 ∧ (c9_run 5).1 = 1) ∧
    (c9_run 1).2.membrane_potential = c9_neuron.reset_potential ∧
    (c9_run 2).2.membrane_potential = c9_neuron.reset_potential + 20 ∧
    (c9_run 3).2.membrane_potential = c9_neuron.reset_potential + 40 ∧
    (c9_run 4).2.membrane_potential = c9_neuron.reset_potential + 60 ∧
    (c9_run 5).2.membrane_potential = c9_neuron.reset_potential + 80 ∧
    (c9_run 2).2.refactory_counter > 0 ∧
    (c9_run 3).2.refactory_counter > 0 ∧
    (c9_run 4).2.refactory_counter > 0 := by
  norm_num [c9_run, c9_step, c9_neuron, LifNeuron.update, LifNeuron.add_membrane_potential,
    Function.iterate_succ, Function.iterate_zero]

theorem update_neurons_frame (x : World) :
    (update_neurons x).synapses = x.synapses ∧
    (update_neurons x).deferred_stdp_events = x.deferred_stdp_events := by
  unfold update_neurons
  split_ifs <;> exact ⟨rfl, rfl⟩

theorem update_stdp_synapses_deferred_frame (expf : ℚ → ℚ) (x : World) :
    (update_stdp_synapses expf x).deferred_stdp_events = x.deferred_stdp_events := by
  unfold update_stdp_synapses
  dsimp only
  split_ifs <;> rfl

theorem tick_deferred_frame (expf : ℚ → ℚ) (w : World) :
    (simulationTick expf w).deferred_stdp_events = w.deferred_stdp_events := by
  calc (simulationTick expf w).deferred_stdp_events
      = (update_stdp_synapses expf
          (update_synapses
            (update_neurons { w with clock := update_clock w.clock }))).deferred_stdp_events :=
        rfl
    _ = (update_synapses
          (update_neurons { w with clock := update_clock w.clock })).deferred_stdp_events :=
        update_stdp_synapses_deferred_frame expf _
    _ = (update_neurons { w with clock := update_clock w.clock }).deferred_stdp_events := rfl
    _ = w.deferred_stdp_events := (update_neurons_frame _).2

theorem stepStdpSynapse_inhibitory (expf : ℚ → ℚ) (ns : List NeuronEntry)
    (settings : StdpSettings) (clock : Clock) (s : StdpSynapse)
    (h : s.synapse_type = SynapseType.Inhibitory) :
    stepStdpSynapse expf ns settings clock s = s := by
  unfold stepStdpSynapse
  rw [if_pos h]

/-- Claim C10: the periodic look-back pass of `update_stdp_synapses` leaves
every inhibitory STDP synapse exactly as it found it (the pass `continue`s
on `SynapseType::Inhibitory` before reading any state). -/
theorem C10_inhibitory_unchanged (expf : ℚ → ℚ) (w : World) (i pid : ℕ) (s : StdpSynapse)
    (hmem : w.synapses[i]? = some (pid, SynapseModel.stdp s))
    (hinh : s.synapse_type = SynapseType.Inhibitory) :
    (update_stdp_synapses expf w).synapses[i]? = some (pid, SynapseModel.stdp s) := by
  unfold update_stdp_synapses
  dsimp only
  split_ifs with hguard
  · exact hmem
  · rw [List.getElem?_map, hmem]
    dsimp only [Option.map_some']
    rw [stepStdpSynapse_inhibitory _ _ _ _ _ hinh]

/-- Claim C10 witness: the frame theorem applied to a world whose look-back
pass runs this tick over an inhibitory synapse with spiking endpoints. -/
theorem C10_inhibitory_unchanged_witness :
    c10_world.synapses[0]? = some (5, SynapseModel.stdp c10_synapse) ∧
    c10_synapse.synapse_type = SynapseType.Inhibitory ∧
    (update_stdp_synapses (fun q => q) c10_world).synapses[0]? =
      some (5, SynapseModel.stdp c10_synapse) :=
  ⟨rfl, rfl, C10_inhibitory_unchanged (fun q => q) c10_world 0 5 c10_synapse rfl rfl⟩

/-- Claim C1, amended: the integration pass (`update_neurons`) touches no
synapse — in particular it never calls `register_pre_spike` or
`register_post_spike`, which are dead code in the pipeline — and no stage of
the tick queues a `DeferredStdpEvent`: the deferred queue leaving a full
tick is exactly the queue that entered it. Fired neurons only get a
`SpikeEvent` queued and their own recorder appended. -/
theorem C1_pipeline_no_stdp_registration (expf : ℚ → ℚ) (w : World) :
    (update_neurons w).synapses = w.synapses ∧
    (update_neurons w).deferred_stdp_events = w.deferred_stdp_events ∧
    (simulationTick expf w).deferred_stdp_events = w.deferred_stdp_events :=
  ⟨(update_neurons_frame w).1, (update_neurons_frame w).2, tick_deferred_frame expf w⟩

/-- Claim C1, counterexample: in `c1_world` neuron 0 fires during the tick
(the integration pass queues the spike event `[0]`), and `c1_synapse` —
presynaptic neuron 0, live trace, last side `PostSpike` — is precisely a
synapse on which the claim requires `register_pre_spike` to be called and
its delta queued; yet after the full tick the deferred queue is still empty
and the synapse is completely unchanged (its spike side is still
`PostSpike`, not the `PreSpike` a `register_pre_spike` call always sets). -/
theorem C1_counterexample :
    (update_neurons { c1_world with clock := update_clock c1_world.clock }).spike_events.map
        SpikeEvent.neuron = [0] ∧
    c1_synapse.stdp_state.spike_type = StdpSpikeType.PostSpike ∧
    (simulationTick (fun q => q) c1_world).deferred_stdp_events = [] ∧
    (simulationTick (fun q => q) c1_world).synapses.map Prod.snd =
      [SynapseModel.stdp c1_synapse] := by
  refine ⟨?_, rfl, tick_deferred_frame (fun q => q) c1_world, ?_⟩
  · norm_num [c1_world, c1_neuron, update_clock, update_neurons, stepNeuronEntry,
      NeuronModel.update, LifNeuron.update, List.filterMap_cons, List.filterMap_nil]
  · norm_num [simulationTick, c1_world, c1_neuron, c1_synapse, update_clock, update_neurons,
      stepNeuronEntry, NeuronModel.update, LifNeuron.update, update_synapses,
      applySynapseForSpike, injectIntoNeuron, SynapseModel.get_presynaptic,
      SynapseModel.get_postsynaptic, SynapseModel.get_type, SynapseModel.get_weight,
      NeuronModel.add_membrane_potential, LifNeuron.add_membrane_potential,
      update_stdp_synapses, stepStdpSynapse, lookupRecorder, prune_synapses,
      SimpleSpikeRecorder.get_spikes, average, List.find?, List.filterMap_cons,
      List.filterMap_nil]

/-- Claim C7: in the two-neuron world, the integration pass updates each
neuron only through its own `integrate` — neuron 1's state after
`update_neurons` is exactly `nB.update(tau)`, independent of neuron 0's
firing — and only the subsequent propagation pass (`update_synapses`,
draining the spike queue) applies `inject_current(+0.5)` to neuron 1. -/
theorem C7_integration_before_propagation (nA nB : LifNeuron)
    (hA : (nA.update (1 / 40)).1 = true) :
    (update_neurons { c7_world nA nB with
        clock := update_clock (c7_world nA nB).clock }).neurons =
      [{ id := 0, model := NeuronModel.lif (nA.update (1 / 40)).2, recorder := none },
       { id := 1, model := NeuronModel.lif (nB.update (1 / 40)).2, recorder := none }] ∧
    (update_synapses (update_neurons { c7_world nA nB with
        clock := update_clock (c7_world nA nB).clock })).neurons =
      [{ id := 0, model := NeuronModel.lif (nA.update (1 / 40)).2, recorder := none },
       { id := 1, model := NeuronModel.lif
           ((nB.update (1 / 40)).2.add_membrane_potential (1 / 2)).2, recorder := none }] := by
  rcases hAeq : nA.update (1 / 40) with ⟨fA, nA2⟩
  rcases hBeq : nB.update (1 / 40) with ⟨fB, nB2⟩
  rw [hAeq] at hA
  dsimp only at hA
  subst hA
  cases fB <;>
    norm_num [c7_world, update_clock, update_neurons, stepNeuronEntry, NeuronModel.update,
      hAeq, hBeq, update_synapses, applySynapseForSpike, injectIntoNeuron,
      SynapseModel.get_presynaptic, SynapseModel.get_postsynaptic, SynapseModel.get_type,
      SynapseModel.get_weight, NeuronModel.add_membrane_potential,
      List.filterMap_cons, List.filterMap_nil, List.foldl_cons, List.foldl_nil]

/-- Claim C7 witness: the ordering theorem applied to a firing neuron 0 and
a resting neuron 1. -/
theorem C7_integration_before_propagation_witness :
    (c1_neuron.update (1 / 40)).1 = true ∧
    ((update_neurons { c7_world c1_neuron c9_neuron with
        clock := update_clock (c7_world c1_neuron c9_neuron).clock }).neurons =
      [{ id := 0, model := NeuronModel.lif (c1_neuron.update (1 / 40)).2, recorder := none },
       { id := 1, model := NeuronModel.lif (c9_neuron.update (1 / 40)).2, recorder := none }] ∧
    (update_synapses (update_neurons { c7_world c1_neuron c9_neuron with
        clock := update_clock (c7_world c1_neuron c9_neuron).clock })).neurons =
      [{ id := 0, model := NeuronModel.lif (c1_neuron.update (1 / 40)).2, recorder := none },
       { id := 1, model := NeuronModel.lif
           ((c9_neuron.update (1 / 40)).2.add_membrane_potential (1 / 2)).2,
         recorder := none }]) :=
  ⟨by norm_num [c1_neuron, LifNeuron.update],
   C7_integration_before_propagation c1_neuron c9_neuron
     (by norm_num [c1_neuron, LifNeuron.update])⟩

end Silicon
